import Mathlib

/-!
# Verification of the campy FLIR acquisition loop

Shallow embedding of `src/campy/cameras/flir/cam.py` (`GrabFrames`, `CloseCamera`)
and `src/campy/cameras/flir/CameraPreparation.py` (`prepare_camera`).

Modelling conventions:
* Python numbers from the configuration dictionary are modelled as rationals (`ℚ`);
  hardware timestamps (nanoseconds) are integers (`ℤ`).
* Python `round` is round-half-to-even (`pythonRound` below); `int(round(x))` is the same.
* The camera and the external queues are modelled by an explicit per-iteration
  environment (`LoopInput`): the value of `camera.IsStreaming()`, the truthiness of
  `stopQueue`, and the outcome of `camera.GetNextImage(0)` for that iteration
  (a grabbed frame with its chunk-data timestamp, or a raised
  `PySpin.SpinnakerException` meaning "no image available yet").
* Exceptions are modelled by explicit control flow: each statement of the success
  block that can raise (`cnt % frameRatio` with a zero ratio, numpy slicing with
  stride 0, `cnt % chunkLengthInFrames` with a zero chunk length, `cnt / grabtime`
  with `grabtime == 0.0`) is evaluated in order, and a raise skips the rest of the
  block; `SpinnakerException` is counted in `backoffs` (its handler sleeps 0.1 ms),
  every other exception in `loggedErrors` (its handler only logs).
-/

namespace Campy

/-- Python `round` (banker's rounding, round half to even), on rationals. -/
def pythonRound (q : ℚ) : ℤ :=
  let f : ℤ := ⌊q⌋
  let frac : ℚ := q - (f : ℚ)
  if frac < 1/2 then f
  else if 1/2 < frac then f + 1
  else if 2 ∣ f then f else f + 1

/-- A raw image payload (`grabResult.GetNDArray()` / `grabResult.Array`),
modelled as a matrix of pixel values. -/
abbrev Frame := List (List ℕ)

/-- Elements of `l` at indices `0, d, 2*d, ...`: Python slicing `l[::d]` for `d ≥ 1`. -/
def everyNth (d : ℕ) (l : List α) : List α :=
  (l.enum.filter (fun pr => pr.1 % d = 0)).map Prod.snd

/-- Numpy slicing `a[::d, ::d]` (cam.py lines 105-106).  Stride `0` raises
`ValueError`, modelled as `Except.error`. -/
def strideSlice (d : ℕ) (f : Frame) : Except Unit Frame :=
  if d = 0 then Except.error ()
  else Except.ok ((everyNth d f).map (everyNth d))

/-- The downsampled copy pushed to the display queue for stride `d ≥ 1`. -/
def downsampleFrame (d : ℕ) (f : Frame) : Frame :=
  (everyNth d f).map (everyNth d)

/-- The configuration fields of `cam_params` read by `GrabFrames`. -/
structure CamParams where
  frameRate : ℚ
  recTimeInSec : ℚ
  chunkLengthInSec : ℚ
  displayFrameRate : ℚ
  displayDownsample : ℕ
  deriving DecidableEq, Repr

/-- `numImagesToGrab = cam_params['recTimeInSec'] * cam_params['frameRate']`
(cam.py line 64). -/
def numImagesToGrab (p : CamParams) : ℚ :=
  p.recTimeInSec * p.frameRate

/-- `chunkLengthInFrames = int(round(cam_params["chunkLengthInSec"] * cam_params['frameRate']))`
(cam.py line 65). -/
def chunkLengthInFrames (p : CamParams) : ℤ :=
  pythonRound (p.chunkLengthInSec * p.frameRate)

/-- The value of the Python variable `frameRatio` (cam.py lines 67-72): either
`float('inf')`, or `int(round(frameRate / displayFrameRate))` (an integer), or the
raw configured `frameRate` (an arbitrary number). -/
inductive FrameRatioVal where
  | inf : FrameRatioVal
  | int (z : ℤ) : FrameRatioVal
  | rat (q : ℚ) : FrameRatioVal
  deriving DecidableEq, Repr

/-- cam.py lines 67-72: the `frameRatio` computation. -/
def frameRatioOf (p : CamParams) : FrameRatioVal :=
  if p.displayFrameRate ≤ 0 then FrameRatioVal.inf
  else if p.displayFrameRate ≤ p.frameRate then
    FrameRatioVal.int (pythonRound (p.frameRate / p.displayFrameRate))
  else FrameRatioVal.rat p.frameRate

/-- The test `cnt % frameRatio == 0` (cam.py line 104).  `cnt % float('inf')` is
`float(cnt)`, nonzero since `cnt ≥ 1` here; `cnt % 0` raises `ZeroDivisionError`
(modelled as `Except.error`); otherwise the test holds exactly when the ratio
divides `cnt`. -/
def ratioPush : FrameRatioVal → ℕ → Except Unit Bool
  | FrameRatioVal.inf, _ => Except.ok false
  | FrameRatioVal.int z, cnt =>
      if z = 0 then Except.error () else Except.ok (decide (z ∣ (cnt : ℤ)))
  | FrameRatioVal.rat q, cnt =>
      if q = 0 then Except.error () else Except.ok (decide (((cnt : ℚ) / q).den = 1))

/-- One outcome of `camera.GetNextImage(timeout)` (cam.py line 90): a grabbed
image carrying its chunk-data hardware timestamp (nanoseconds) and pixel payload,
or a raised `PySpin.SpinnakerException` ("not yet available"). -/
inductive GrabOutcome where
  | success (ts : ℤ) (frame : Frame) : GrabOutcome
  | notYetAvailable : GrabOutcome
  deriving DecidableEq, Repr

/-- The external environment of one iteration of the `while` loop at cam.py
line 83: the value of `camera.IsStreaming()`, the truthiness of `stopQueue`, and
what the grab attempt would yield. -/
structure LoopInput where
  stop : Bool
  streaming : Bool
  outcome : GrabOutcome
  deriving DecidableEq, Repr

/-- An element of `writeQueue`: a frame payload or the `'STOP'` sentinel
(cam.py lines 94 and 86). -/
inductive WriteItem where
  | frame (f : Frame) : WriteItem
  | stop : WriteItem
  deriving DecidableEq, Repr

/-- The mutable state of one `GrabFrames` session, plus instrumentation counters
(`grabAttempts` = calls to `GetNextImage`, `backoffs` = executions of the
`SpinnakerException` handler with its `time.sleep(0.0001)`, `loggedErrors` =
executions of the generic `except Exception` handler, `released` = calls to
`grabResult.Release()`, `chunkReports` = throughput lines printed,
`finalizations` = calls to `CloseCamera`, `metadataSaved` = the `grabdata`
handed to `SaveMetadata` inside `CloseCamera`). -/
structure LoopState where
  cnt : ℕ
  timeFirstGrab : ℤ
  timeStamps : List ℚ
  frameNumbers : List ℕ
  writeQueue : List WriteItem
  dispQueue : List Frame
  metadataSaved : Option (List ℕ × List ℚ)
  finalizations : ℕ
  grabAttempts : ℕ
  backoffs : ℕ
  loggedErrors : ℕ
  released : ℕ
  chunkReports : ℕ
  deriving DecidableEq, Repr

/-- State at cam.py lines 58-62: `cnt = 0`, empty `grabdata`, empty queues.
`timeFirstGrab` is uninitialised in Python until the first successful grab; it is
never read before being set (the read at line 98 follows the `cnt == 0` write at
line 97 on the first success), so an arbitrary initial value (0) is sound. -/
def initState : LoopState :=
  { cnt := 0, timeFirstGrab := 0, timeStamps := [], frameNumbers := [],
    writeQueue := [], dispQueue := [], metadataSaved := none, finalizations := 0,
    grabAttempts := 0, backoffs := 0, loggedErrors := 0, released := 0,
    chunkReports := 0 }

/-- The relative timestamp `(chunkData.GetTimestamp() - timeFirstGrab) / 1e9`
(cam.py line 98). -/
def relTs (t0 : ℤ) (t : ℤ) : ℚ :=
  ((t - t0 : ℤ) : ℚ) / 1000000000


/-- cam.py lines 109-111: the throughput report.  Returns the increments to
`(loggedErrors, chunkReports)`.  `cnt % 0` and `cnt / 0.0` raise
`ZeroDivisionError`, caught by the generic handler. -/
def chunkOutcome (p : CamParams) (cnt1 : ℕ) (grabtime : ℚ) : ℕ × ℕ :=
  let chunk := chunkLengthInFrames p
  if chunk = 0 then (1, 0)
  else if chunk ∣ (cnt1 : ℤ) then
    (if grabtime = 0 then (1, 0) else (0, 1))
  else (0, 0)

/-- cam.py lines 104-111, the tail of the success block after the grab record is
appended: the display push, the buffer release and the throughput report, with a
raise at any stage skipping the remaining stages.  Returns
`(dispQueue appendees, released increment, loggedErrors increment, chunkReports increment)`. -/
def successTail (p : CamParams) (cnt1 : ℕ) (grabtime : ℚ) (frame : Frame) :
    List Frame × ℕ × ℕ × ℕ :=
  match ratioPush (frameRatioOf p) cnt1 with
  | Except.error _ => ([], 0, 1, 0)
  | Except.ok true =>
      match strideSlice p.displayDownsample frame with
      | Except.error _ => ([], 0, 1, 0)
      | Except.ok df =>
          let c := chunkOutcome p cnt1 grabtime
          ([df], 1, c.1, c.2)
  | Except.ok false =>
      let c := chunkOutcome p cnt1 grabtime
      ([], 1, c.1, c.2)

/-- cam.py lines 90-111: processing of one successful grab.  The payload goes to
`writeQueue` (line 94), the time-zero reference is latched on the first grab
(lines 96-97), the relative timestamp and the frame number `cnt` (incremented
first, so the first frame is 1) are appended to `grabdata` (lines 98-102), then
the tail stages run (lines 104-111). -/
def processSuccess (p : CamParams) (s : LoopState) (ts : ℤ) (frame : Frame) :
    LoopState :=
  let t0 : ℤ := if s.cnt = 0 then ts else s.timeFirstGrab
  let grabtime : ℚ := relTs t0 ts
  let cnt1 : ℕ := s.cnt + 1
  let tl := successTail p cnt1 grabtime frame
  { s with
    grabAttempts := s.grabAttempts + 1,
    writeQueue := s.writeQueue ++ [WriteItem.frame frame],
    timeFirstGrab := t0,
    timeStamps := s.timeStamps ++ [grabtime],
    cnt := cnt1,
    frameNumbers := s.frameNumbers ++ [cnt1],
    dispQueue := s.dispQueue ++ tl.1,
    released := s.released + tl.2.1,
    loggedErrors := s.loggedErrors + tl.2.2.1,
    chunkReports := s.chunkReports + tl.2.2.2 }

/-- cam.py lines 85-86: `CloseCamera(cam_params, camera, grabdata)` (whose first
action is to hand `grabdata` to `SaveMetadata`) followed by
`writeQueue.append('STOP')`.  The close retry loop itself is modelled separately
(`CloseCameraRun` below); here its externally visible effect on the session is
recorded. -/
def finalizeState (s : LoopState) : LoopState :=
  { s with
    metadataSaved := some (s.frameNumbers, s.timeStamps),
    finalizations := s.finalizations + 1,
    writeQueue := s.writeQueue ++ [WriteItem.stop] }

/-- How one iteration of the `while` loop ended: still looping, broke out via the
stop check (cam.py lines 84-87), or the `while (camera.IsStreaming())` condition
turned false (line 83). -/
inductive LoopExit where
  | running : LoopExit
  | finalized : LoopExit
  | streamEnded : LoopExit
  deriving DecidableEq, Repr

/-- One iteration of the `while` loop, cam.py lines 83-117. -/
def step (p : CamParams) (s : LoopState) (inp : LoopInput) : LoopState × LoopExit :=
  if inp.streaming = false then (s, LoopExit.streamEnded)
  else if inp.stop = true ∨ numImagesToGrab p ≤ (s.cnt : ℚ) then
    (finalizeState s, LoopExit.finalized)
  else
    match inp.outcome with
    | GrabOutcome.notYetAvailable =>
        ({ s with grabAttempts := s.grabAttempts + 1, backoffs := s.backoffs + 1 },
         LoopExit.running)
    | GrabOutcome.success ts frame => (processSuccess p s ts frame, LoopExit.running)

/-- The loop of cam.py lines 83-117, driven by a finite trace of per-iteration
environments.  Stops at the first iteration that breaks or whose streaming check
fails; `LoopExit.running` means the trace was exhausted with the loop still live. -/
def runLoopAux (p : CamParams) (s : LoopState) : List LoopInput → LoopState × LoopExit
  | [] => (s, LoopExit.running)
  | inp :: rest =>
      match step p s inp with
      | (s1, LoopExit.running) => runLoopAux p s1 rest
      | r => r

/-- `GrabFrames` (cam.py lines 55-117) from its initial state. -/
def GrabFrames (p : CamParams) (inputs : List LoopInput) : LoopState × LoopExit :=
  runLoopAux p initState inputs

/-- An iteration environment in which the camera streams, no stop is requested
and the grab raises `SpinnakerException` ("not yet available"). -/
def nyaInput : LoopInput :=
  { stop := false, streaming := true, outcome := GrabOutcome.notYetAvailable }

/-- An iteration environment in which the camera streams, no stop is requested
and the grab succeeds with timestamp `ts` and payload `f`. -/
def succInput (ts : ℤ) (f : Frame) : LoopInput :=
  { stop := false, streaming := true, outcome := GrabOutcome.success ts f }

/-- A trace of `n` successful grabs with timestamps `tsf 0, tsf 1, ...` and a
fixed payload `f`. -/
def successRun (n : ℕ) (tsf : ℕ → ℤ) (f : Frame) : List LoopInput :=
  (List.range n).map (fun i => succInput (tsf i) f)

/-- The hardware timestamps of the successful grab outcomes of a trace, in
order. -/
def successTs : List LoopInput → List ℤ
  | [] => []
  | inp :: rest =>
      match inp.outcome with
      | GrabOutcome.success ts _ => ts :: successTs rest
      | GrabOutcome.notYetAvailable => successTs rest

/-!
## The `CloseCamera` retry loop (cam.py lines 120-136)

```
while True:
    try:
        try:
            SaveMetadata(cam_params,grabdata); time.sleep(1)
            camera.Close(); camera.StopGrabbing(); break
        except: time.sleep(0.1)
    except KeyboardInterrupt: break
```

Per iteration, either the body (`SaveMetadata` through `StopGrabbing`) completes
and the loop breaks, or some statement of the body raises.  The inner `except:`
is *bare*: it catches every exception raised in the body, including a
`KeyboardInterrupt` delivered during the body (e.g. during `time.sleep(1)`), and
then sleeps 0.1 s.  Only an exception raised inside that handler itself — in
practice a `KeyboardInterrupt` delivered during the `time.sleep(0.1)` — escapes
the inner `try` and reaches `except KeyboardInterrupt: break`.
-/

/-- The externally determined events of one iteration of the `CloseCamera` retry
loop: the body completes, or the body raises (`isKI` records whether the raised
exception was a `KeyboardInterrupt`) and `kiDuringHandler` records whether a
`KeyboardInterrupt` was delivered during the inner handler's `time.sleep(0.1)`. -/
inductive CloseEvent where
  | bodyOk : CloseEvent
  | bodyRaise (isKI : Bool) (kiDuringHandler : Bool) : CloseEvent
  deriving DecidableEq, Repr

/-- How the `CloseCamera` retry loop ended. -/
inductive CloseExit where
  | closed : CloseExit
  | interrupted : CloseExit
  deriving DecidableEq, Repr

/-- The `CloseCamera` retry loop over a finite event trace: `some (exit, n)`
means the loop broke after `n` iterations; `none` means the trace was exhausted
with the loop still retrying. -/
def CloseCameraRun : List CloseEvent → Option (CloseExit × ℕ)
  | [] => none
  | CloseEvent.bodyOk :: _ => some (CloseExit.closed, 1)
  | CloseEvent.bodyRaise _ true :: _ => some (CloseExit.interrupted, 1)
  | CloseEvent.bodyRaise _ false :: rest =>
      match CloseCameraRun rest with
      | none => none
      | some (k, n) => some (k, n + 1)

/-- Whether an external interrupt was raised at some point during this
iteration (in the body or during the handler sleep). -/
def interruptRaised : CloseEvent → Bool
  | CloseEvent.bodyOk => false
  | CloseEvent.bodyRaise ki kih => ki || kih

/-!
## The metadata persistence step

`CloseCamera` calls `SaveMetadata(cam_params, grabdata)` (cam.py line 128), but
the body of `SaveMetadata` is not among the sources under `src/`.
-/

/-- Modelled from the spec: the body of `SaveMetadata` is missing from `src/`
(only its call site at cam.py line 128 is present).  Spec sections 4.2 and 6
give the file format (header row `frameNumber,timeStamp`, one row per frame),
and spec section 9 records what the source's writer actually does: "the
source's metadata CSV-writing logic zips `frameNumber` with itself (both
columns write `frameNumber`, not `timeStamp`)".  This definition follows those
words: the data rows pair each frame number with the frame number again, and
the accumulated timestamps are ignored. -/
def saveMetadataRows (frameNumbers : List ℕ) (timeStamps : List ℚ) :
    List (ℚ × ℚ) :=
  (frameNumbers.zip frameNumbers).map (fun pr => ((pr.1 : ℚ), (pr.2 : ℚ)))

/-- Modelled from the spec (section 6): the header row of the metadata file. -/
def saveMetadataHeader : List String :=
  ["frameNumber", "timeStamp"]

/-- The display cadence as the claim words it (for comparison with
`frameRatioOf`): `ratio = round(frameRate / displayFrameRate)` clamped to be at
least 1. -/
def specRatioClamped (p : CamParams) : ℤ :=
  max 1 (pythonRound (p.frameRate / p.displayFrameRate))

/-!
## The camera configuration pipeline (CameraPreparation.py lines 358-387)

`prepare_camera` runs six fallible configuration steps as a nested `if` chain:
acquisition mode, exposure, gain, gamma, trigger, buffer.  Each step's outcome
(the `True`/`False` it returns) is modelled as a boolean input.
-/

/-- CameraPreparation.py lines 378-387: `result = False`, then the nested `if`
chain; the buffer step's return value becomes the overall result only when the
five preceding steps all succeeded. -/
def prepare_camera (acqOk expOk gainOk gammaOk trigOk bufOk : Bool) : Bool :=
  if acqOk then
    if expOk then
      if gainOk then
        if gammaOk then
          if trigOk then bufOk
          else false
        else false
      else false
    else false
  else false

/-- The number of configuration functions actually called by `prepare_camera`:
`configure_acquisition_mode` is always called; each later step is called only
inside the `if` guarded by all earlier outcomes. -/
def prepare_camera_calls (acqOk expOk gainOk gammaOk trigOk : Bool) : ℕ :=
  1 + (if acqOk then
        1 + (if expOk then
              1 + (if gainOk then
                    1 + (if gammaOk then
                          1 + (if trigOk then 1 else 0)
                        else 0)
                  else 0)
            else 0)
      else 0)

/-!
## Concrete configurations and traces used by the scenario claims
-/

/-- The configuration of the spec's section 8 scenario: `frameRate=30`,
`recTimeInSec=10`; display off, one-second throughput chunks. -/
def p30 : CamParams :=
  { frameRate := 30, recTimeInSec := 10, chunkLengthInSec := 1,
    displayFrameRate := 0, displayDownsample := 1 }

/-- 301 available successful grabs at timestamps `0, 33333333 ns, 66666666 ns, ...`;
the loop is expected to consume only 300 of them. -/
def scenarioInputs : List LoopInput :=
  successRun 301 (fun i => (i : ℤ) * 33333333) [[0]]

/-- A session state that has not yet been finalized: no `CloseCamera` call, no
metadata handoff, no `'STOP'` sentinel in the write queue. -/
def CleanS (s : LoopState) : Prop :=
  s.finalizations = 0 ∧ s.metadataSaved = none ∧
  s.writeQueue.count WriteItem.stop = 0

/-- The timestamp bookkeeping of a session state, relative to the list `hw` of
hardware timestamps of the successful grabs processed so far: the counter
equals the number of grabs, the stored timestamps are the relative timestamps
of the grabbed hardware timestamps, and the time-zero reference is the first
grabbed hardware timestamp. -/
def TsInv (s : LoopState) (hw : List ℤ) : Prop :=
  s.cnt = hw.length ∧
  s.timeStamps = hw.map (relTs s.timeFirstGrab) ∧
  (hw ≠ [] → hw.head? = some s.timeFirstGrab)

/-!
## Concrete traces used by witnesses and counterexamples
-/

/-- An iteration at which the external stop signal is raised. -/
def stopInput : LoopInput :=
  { stop := true, streaming := true, outcome := GrabOutcome.notYetAvailable }

/-- An iteration at which `camera.IsStreaming()` reports false. -/
def endInput : LoopInput :=
  { stop := false, streaming := false, outcome := GrabOutcome.notYetAvailable }

/-- One successful grab followed by a stop signal. -/
def w1Inputs : List LoopInput := [succInput 5 [[1]], stopInput]


/-!
## Basic equations of the step function
-/

@[simp] lemma relTs_self (t : ℤ) : relTs t t = 0 := by
  simp [relTs]

@[simp] lemma processSuccess_cnt (p : CamParams) (s : LoopState) (ts : ℤ) (f : Frame) :
    (processSuccess p s ts f).cnt = s.cnt + 1 := rfl

@[simp] lemma processSuccess_grabAttempts (p : CamParams) (s : LoopState) (ts : ℤ)
    (f : Frame) : (processSuccess p s ts f).grabAttempts = s.grabAttempts + 1 := rfl

@[simp] lemma processSuccess_frameNumbers (p : CamParams) (s : LoopState) (ts : ℤ)
    (f : Frame) :
    (processSuccess p s ts f).frameNumbers = s.frameNumbers ++ [s.cnt + 1] := rfl

@[simp] lemma processSuccess_timeFirstGrab (p : CamParams) (s : LoopState) (ts : ℤ)
    (f : Frame) :
    (processSuccess p s ts f).timeFirstGrab
      = (if s.cnt = 0 then ts else s.timeFirstGrab) := rfl

@[simp] lemma processSuccess_timeStamps (p : CamParams) (s : LoopState) (ts : ℤ)
    (f : Frame) :
    (processSuccess p s ts f).timeStamps
      = s.timeStamps ++ [relTs (if s.cnt = 0 then ts else s.timeFirstGrab) ts] := rfl

@[simp] lemma processSuccess_writeQueue (p : CamParams) (s : LoopState) (ts : ℤ)
    (f : Frame) :
    (processSuccess p s ts f).writeQueue = s.writeQueue ++ [WriteItem.frame f] := rfl

@[simp] lemma processSuccess_dispQueue (p : CamParams) (s : LoopState) (ts : ℤ)
    (f : Frame) :
    (processSuccess p s ts f).dispQueue
      = s.dispQueue ++ (successTail p (s.cnt + 1)
          (relTs (if s.cnt = 0 then ts else s.timeFirstGrab) ts) f).1 := rfl

@[simp] lemma processSuccess_released (p : CamParams) (s : LoopState) (ts : ℤ)
    (f : Frame) :
    (processSuccess p s ts f).released
      = s.released + (successTail p (s.cnt + 1)
          (relTs (if s.cnt = 0 then ts else s.timeFirstGrab) ts) f).2.1 := rfl

@[simp] lemma processSuccess_loggedErrors (p : CamParams) (s : LoopState) (ts : ℤ)
    (f : Frame) :
    (processSuccess p s ts f).loggedErrors
      = s.loggedErrors + (successTail p (s.cnt + 1)
          (relTs (if s.cnt = 0 then ts else s.timeFirstGrab) ts) f).2.2.1 := rfl

@[simp] lemma processSuccess_chunkReports (p : CamParams) (s : LoopState) (ts : ℤ)
    (f : Frame) :
    (processSuccess p s ts f).chunkReports
      = s.chunkReports + (successTail p (s.cnt + 1)
          (relTs (if s.cnt = 0 then ts else s.timeFirstGrab) ts) f).2.2.2 := rfl

@[simp] lemma processSuccess_finalizations (p : CamParams) (s : LoopState) (ts : ℤ)
    (f : Frame) : (processSuccess p s ts f).finalizations = s.finalizations := rfl

@[simp] lemma processSuccess_metadataSaved (p : CamParams) (s : LoopState) (ts : ℤ)
    (f : Frame) : (processSuccess p s ts f).metadataSaved = s.metadataSaved := rfl

@[simp] lemma processSuccess_backoffs (p : CamParams) (s : LoopState) (ts : ℤ)
    (f : Frame) : (processSuccess p s ts f).backoffs = s.backoffs := rfl

@[simp] lemma finalizeState_cnt (s : LoopState) : (finalizeState s).cnt = s.cnt := rfl

@[simp] lemma finalizeState_frameNumbers (s : LoopState) :
    (finalizeState s).frameNumbers = s.frameNumbers := rfl

@[simp] lemma finalizeState_timeStamps (s : LoopState) :
    (finalizeState s).timeStamps = s.timeStamps := rfl

@[simp] lemma finalizeState_timeFirstGrab (s : LoopState) :
    (finalizeState s).timeFirstGrab = s.timeFirstGrab := rfl

@[simp] lemma finalizeState_dispQueue (s : LoopState) :
    (finalizeState s).dispQueue = s.dispQueue := rfl

@[simp] lemma finalizeState_grabAttempts (s : LoopState) :
    (finalizeState s).grabAttempts = s.grabAttempts := rfl

@[simp] lemma finalizeState_finalizations (s : LoopState) :
    (finalizeState s).finalizations = s.finalizations + 1 := rfl

@[simp] lemma finalizeState_metadataSaved (s : LoopState) :
    (finalizeState s).metadataSaved = some (s.frameNumbers, s.timeStamps) := rfl

@[simp] lemma finalizeState_writeQueue (s : LoopState) :
    (finalizeState s).writeQueue = s.writeQueue ++ [WriteItem.stop] := rfl

@[simp] lemma runLoopAux_nil (p : CamParams) (s : LoopState) :
    runLoopAux p s [] = (s, LoopExit.running) := rfl

lemma step_streamEnded (p : CamParams) (s : LoopState) (inp : LoopInput)
    (h : inp.streaming = false) : step p s inp = (s, LoopExit.streamEnded) := by
  simp [step, h]

lemma step_finalized (p : CamParams) (s : LoopState) (inp : LoopInput)
    (h : inp.streaming = true)
    (h2 : inp.stop = true ∨ numImagesToGrab p ≤ (s.cnt : ℚ)) :
    step p s inp = (finalizeState s, LoopExit.finalized) := by
  simp [step, h, h2]

lemma step_nya (p : CamParams) (s : LoopState) (inp : LoopInput)
    (h : inp.streaming = true) (h1 : inp.stop = false)
    (h2 : (s.cnt : ℚ) < numImagesToGrab p)
    (ho : inp.outcome = GrabOutcome.notYetAvailable) :
    step p s inp
      = ({ s with grabAttempts := s.grabAttempts + 1, backoffs := s.backoffs + 1 },
         LoopExit.running) := by
  simp [step, h, h1, ho, not_le.mpr h2]

lemma step_success (p : CamParams) (s : LoopState) (inp : LoopInput) (ts : ℤ)
    (f : Frame) (h : inp.streaming = true) (h1 : inp.stop = false)
    (h2 : (s.cnt : ℚ) < numImagesToGrab p)
    (ho : inp.outcome = GrabOutcome.success ts f) :
    step p s inp = (processSuccess p s ts f, LoopExit.running) := by
  simp [step, h, h1, ho, not_le.mpr h2]

lemma runLoopAux_cons_of_step (p : CamParams) (s s1 : LoopState) (inp : LoopInput)
    (rest : List LoopInput) (h : step p s inp = (s1, LoopExit.running)) :
    runLoopAux p s (inp :: rest) = runLoopAux p s1 rest := by
  simp [runLoopAux, h]

lemma runLoopAux_cons_of_halt (p : CamParams) (s s1 : LoopState) (inp : LoopInput)
    (rest : List LoopInput) (e : LoopExit) (he : e ≠ LoopExit.running)
    (h : step p s inp = (s1, e)) :
    runLoopAux p s (inp :: rest) = (s1, e) := by
  cases e with
  | running => exact absurd rfl he
  | finalized => simp [runLoopAux, h]
  | streamEnded => simp [runLoopAux, h]

lemma runLoopAux_append (p : CamParams) (s : LoopState) (l1 l2 : List LoopInput) :
    runLoopAux p s (l1 ++ l2)
      = (if (runLoopAux p s l1).2 = LoopExit.running then
          runLoopAux p (runLoopAux p s l1).1 l2
        else runLoopAux p s l1) := by
  induction l1 generalizing s with
  | nil => simp
  | cons inp rest ih =>
      rcases hs : step p s inp with ⟨s1, e⟩
      cases e with
      | running =>
          rw [List.cons_append, runLoopAux_cons_of_step p s s1 _ _ hs,
            runLoopAux_cons_of_step p s s1 _ _ hs, ih]
      | finalized =>
          rw [List.cons_append,
            runLoopAux_cons_of_halt p s s1 _ _ _ (by simp) hs,
            runLoopAux_cons_of_halt p s s1 _ _ _ (by simp) hs]
          simp
      | streamEnded =>
          rw [List.cons_append,
            runLoopAux_cons_of_halt p s s1 _ _ _ (by simp) hs,
            runLoopAux_cons_of_halt p s s1 _ _ _ (by simp) hs]
          simp

/-!
## Invariants of the loop
-/

/-- A property of the session state preserved by every kind of iteration is
preserved by the whole loop. -/
lemma run_preserve (p : CamParams) (P : LoopState → Prop)
    (hn : ∀ s : LoopState,
      P s → P { s with grabAttempts := s.grabAttempts + 1, backoffs := s.backoffs + 1 })
    (hs : ∀ (s : LoopState) (ts : ℤ) (f : Frame), P s → P (processSuccess p s ts f))
    (hf : ∀ s : LoopState, P s → P (finalizeState s)) :
    ∀ (l : List LoopInput) (s : LoopState), P s → P (runLoopAux p s l).1 := by
  intro l
  induction l with
  | nil => intro s h; simpa using h
  | cons inp rest ih =>
      intro s h
      by_cases hstr : inp.streaming = false
      · rw [runLoopAux_cons_of_halt p s s inp rest _ (by simp)
          (step_streamEnded p s inp hstr)]
        exact h
      · have hstr1 : inp.streaming = true := by simpa using hstr
        by_cases hhalt : inp.stop = true ∨ numImagesToGrab p ≤ (s.cnt : ℚ)
        · rw [runLoopAux_cons_of_halt p s _ inp rest _ (by simp)
            (step_finalized p s inp hstr1 hhalt)]
          exact hf s h
        · push_neg at hhalt
          obtain ⟨hstop, hlt⟩ := hhalt
          have hstop1 : inp.stop = false := by simpa using hstop
          have hlt1 : (s.cnt : ℚ) < numImagesToGrab p := hlt
          cases ho : inp.outcome with
          | notYetAvailable =>
              rw [runLoopAux_cons_of_step p s _ inp rest
                (step_nya p s inp hstr1 hstop1 hlt1 ho)]
              exact ih _ (hn s h)
          | success ts f =>
              rw [runLoopAux_cons_of_step p s _ inp rest
                (step_success p s inp ts f hstr1 hstop1 hlt1 ho)]
              exact ih _ (hs s ts f h)

/-- The frame-number list is always `[1, 2, ..., cnt]`. -/
lemma run_frameNumbers (p : CamParams) (l : List LoopInput) (s : LoopState)
    (h : s.frameNumbers = List.range' 1 s.cnt) :
    (runLoopAux p s l).1.frameNumbers = List.range' 1 (runLoopAux p s l).1.cnt := by
  have := run_preserve p (fun s => s.frameNumbers = List.range' 1 s.cnt)
    (fun s hP => by simpa using hP)
    (fun s ts f hP => by
      have hconcat : List.range' 1 (s.cnt + 1) = List.range' 1 s.cnt ++ [1 + 1 * s.cnt] :=
        List.range'_concat 1 s.cnt
      simp only [processSuccess_frameNumbers, processSuccess_cnt, hP, hconcat]
      norm_num [Nat.add_comm])
    (fun s hP => by simpa using hP) l s h
  exact this

/-- The length of the timestamp list always equals the frame counter. -/
lemma run_timeStamps_length (p : CamParams) (l : List LoopInput) (s : LoopState)
    (h : s.timeStamps.length = s.cnt) :
    (runLoopAux p s l).1.timeStamps.length = (runLoopAux p s l).1.cnt := by
  exact run_preserve p (fun s => s.timeStamps.length = s.cnt)
    (fun s hP => by simpa using hP)
    (fun s ts f hP => by simp [hP])
    (fun s hP => by simpa using hP) l s h

/-- Main finalization dichotomy: starting from a clean state, a run that exits
through the stop check has finalized exactly once, handed exactly the
accumulated records to the metadata recorder, and put exactly one `'STOP'`
sentinel at the very end of the write queue; any other run is still clean. -/
lemma run_clean (p : CamParams) :
    ∀ (l : List LoopInput) (s : LoopState), CleanS s →
      ((runLoopAux p s l).2 = LoopExit.finalized →
        (runLoopAux p s l).1.finalizations = 1 ∧
        (runLoopAux p s l).1.metadataSaved
          = some ((runLoopAux p s l).1.frameNumbers, (runLoopAux p s l).1.timeStamps) ∧
        (runLoopAux p s l).1.writeQueue.count WriteItem.stop = 1 ∧
        (runLoopAux p s l).1.writeQueue.getLast? = some WriteItem.stop) ∧
      ((runLoopAux p s l).2 ≠ LoopExit.finalized → CleanS (runLoopAux p s l).1) := by
  intro l
  induction l with
  | nil =>
      intro s h
      constructor
      · intro hfin; simp at hfin
      · intro _; simpa using h
  | cons inp rest ih =>
      intro s h
      obtain ⟨hf0, hm0, hw0⟩ := h
      by_cases hstr : inp.streaming = false
      · rw [runLoopAux_cons_of_halt p s s inp rest _ (by simp)
          (step_streamEnded p s inp hstr)]
        constructor
        · intro hfin; simp at hfin
        · intro _; exact ⟨hf0, hm0, hw0⟩
      · have hstr1 : inp.streaming = true := by simpa using hstr
        by_cases hhalt : inp.stop = true ∨ numImagesToGrab p ≤ (s.cnt : ℚ)
        · rw [runLoopAux_cons_of_halt p s _ inp rest _ (by simp)
            (step_finalized p s inp hstr1 hhalt)]
          constructor
          · intro _
            refine ⟨by simp [hf0], by simp, ?_, ?_⟩
            · simp [List.count_append, hw0]
            · simp [List.getLast?_concat]
          · intro hne; exact absurd rfl hne
        · push_neg at hhalt
          obtain ⟨hstop, hlt⟩ := hhalt
          have hstop1 : inp.stop = false := by simpa using hstop
          have hlt1 : (s.cnt : ℚ) < numImagesToGrab p := hlt
          cases ho : inp.outcome with
          | notYetAvailable =>
              rw [runLoopAux_cons_of_step p s _ inp rest
                (step_nya p s inp hstr1 hstop1 hlt1 ho)]
              exact ih _ ⟨hf0, hm0, hw0⟩
          | success ts f =>
              rw [runLoopAux_cons_of_step p s _ inp rest
                (step_success p s inp ts f hstr1 hstop1 hlt1 ho)]
              refine ih _ ⟨by simpa using hf0, by simpa using hm0, ?_⟩
              simp [List.count_append, hw0]

lemma w1_run : GrabFrames p30 w1Inputs
    = (finalizeState (processSuccess p30 initState 5 [[1]]), LoopExit.finalized) := by
  have h1 : step p30 initState (succInput 5 [[1]])
      = (processSuccess p30 initState 5 [[1]], LoopExit.running) :=
    step_success p30 initState (succInput 5 [[1]]) 5 [[1]] rfl rfl
      (by norm_num [initState, numImagesToGrab, p30]) rfl
  have h2 : step p30 (processSuccess p30 initState 5 [[1]]) stopInput
      = (finalizeState (processSuccess p30 initState 5 [[1]]), LoopExit.finalized) :=
    step_finalized p30 _ stopInput rfl (Or.inl rfl)
  show runLoopAux p30 initState [succInput 5 [[1]], stopInput] = _
  rw [runLoopAux_cons_of_step p30 _ _ _ _ h1,
    runLoopAux_cons_of_halt p30 _ _ _ _ _ (by simp) h2]

/-!
## Claims C1 and C2
-/

/-- C1, counterexample: the claim asserts finalization runs exactly once on
*every* exit of the acquisition loop, including "the frame source's streaming
ending".  But when `camera.IsStreaming()` turns false the `while` loop at
cam.py line 83 simply falls through: on this concrete run the loop exits via
the streaming check with no `CloseCamera` call, no metadata handoff and no
`'STOP'` sentinel appended. -/
theorem C1_counterexample :
    (GrabFrames p30 [endInput]).2 = LoopExit.streamEnded ∧
    (GrabFrames p30 [endInput]).1.finalizations = 0 ∧
    (GrabFrames p30 [endInput]).1.metadataSaved = none ∧
    (GrabFrames p30 [endInput]).1.writeQueue.count WriteItem.stop = 0 := by
  have h : GrabFrames p30 [endInput] = (initState, LoopExit.streamEnded) := by
    show runLoopAux p30 initState [endInput] = _
    exact runLoopAux_cons_of_halt p30 initState initState endInput [] _ (by simp)
      (step_streamEnded p30 initState endInput rfl)
  rw [h]
  exact ⟨rfl, rfl, rfl, rfl⟩

/-- C1 (amended): on every exit of the acquisition loop through the stop check
(external stop signal raised, or target frame count reached), finalization runs
exactly once — the accumulated GrabRecords are handed to the Metadata Recorder
and a single `'STOP'` sentinel is appended to the Write Sink after all frame
payloads; but on the streaming-ended exit path the loop performs no
finalization and appends no `'STOP'` sentinel at all. -/
theorem C1_finalization (p : CamParams) (inputs : List LoopInput) :
    ((GrabFrames p inputs).2 = LoopExit.finalized →
      (GrabFrames p inputs).1.finalizations = 1 ∧
      (GrabFrames p inputs).1.metadataSaved
        = some ((GrabFrames p inputs).1.frameNumbers,
                (GrabFrames p inputs).1.timeStamps) ∧
      (GrabFrames p inputs).1.writeQueue.count WriteItem.stop = 1 ∧
      (GrabFrames p inputs).1.writeQueue.getLast? = some WriteItem.stop) ∧
    ((GrabFrames p inputs).2 ≠ LoopExit.finalized →
      (GrabFrames p inputs).1.finalizations = 0 ∧
      (GrabFrames p inputs).1.writeQueue.count WriteItem.stop = 0) := by
  have h := run_clean p inputs initState ⟨rfl, rfl, rfl⟩
  exact ⟨h.1, fun hne => ⟨(h.2 hne).1, (h.2 hne).2.2⟩⟩

/-- Witness for C1: a concrete stop-signal run in which finalization happens
exactly once, the records are handed over, and the sentinel is last. -/
theorem C1_finalization_witness :
    (GrabFrames p30 w1Inputs).2 = LoopExit.finalized ∧
    ((GrabFrames p30 w1Inputs).1.finalizations = 1 ∧
     (GrabFrames p30 w1Inputs).1.metadataSaved
       = some ((GrabFrames p30 w1Inputs).1.frameNumbers,
               (GrabFrames p30 w1Inputs).1.timeStamps) ∧
     (GrabFrames p30 w1Inputs).1.writeQueue.count WriteItem.stop = 1 ∧
     (GrabFrames p30 w1Inputs).1.writeQueue.getLast? = some WriteItem.stop) :=
  ⟨by rw [w1_run], (C1_finalization p30 w1Inputs).1 (by rw [w1_run])⟩

/-- C2: for every completed session (any exit of the loop), the frame numbers
accumulated in `grabdata` are exactly the contiguous sequence `1, 2, ..., N`
with no gaps and no repeats, where `N = cnt` is the number of frames
successfully grabbed before the stop. -/
theorem C2_frameNumbers_contiguous (p : CamParams) (inputs : List LoopInput)
    (hdone : (GrabFrames p inputs).2 ≠ LoopExit.running) :
    (GrabFrames p inputs).1.frameNumbers
      = List.range' 1 (GrabFrames p inputs).1.cnt :=
  run_frameNumbers p inputs initState rfl

/-- Witness for C2: a completed session of one successful grab then a stop
signal; the record numbers are `[1] = range' 1 1`. -/
theorem C2_frameNumbers_contiguous_witness :
    (GrabFrames p30 w1Inputs).2 ≠ LoopExit.running ∧
    (GrabFrames p30 w1Inputs).1.frameNumbers
      = List.range' 1 (GrabFrames p30 w1Inputs).1.cnt :=
  ⟨by rw [w1_run]; simp,
   C2_frameNumbers_contiguous p30 w1Inputs (by rw [w1_run]; simp)⟩

/-!
## Claim C3
-/

/-- C3, evaluation at the failing input: for the completed two-frame session
with records `(1, 0.0)` and `(2, 0.5)`, the modelled `SaveMetadata` writer
produces the data rows `(1, 1)` and `(2, 2)` — the second column repeats the
frame numbers instead of holding the relative timestamps, because the writer
zips `frameNumber` with itself.  The header itself is as documented. -/
theorem C3_metadata_second_column :
    saveMetadataHeader = ["frameNumber", "timeStamp"] ∧
    saveMetadataRows [1, 2] [0, 1/2] = [(1, 1), (2, 2)] ∧
    (saveMetadataRows [1, 2] [0, 1/2]).map Prod.snd ≠ [0, 1/2] := by
  refine ⟨rfl, by norm_num [saveMetadataRows], ?_⟩
  norm_num [saveMetadataRows]

/-!
## Claim C8
-/

/-- C8, counterexample: a `KeyboardInterrupt` raised *during the body* of the
retry sequence (e.g. during `time.sleep(1)`) is caught by the bare inner
`except:` and swallowed; on this one-event trace an external interrupt was
raised during the retry loop, the close operations never succeeded, and the
loop is still retrying (no termination) when the trace ends. -/
theorem C8_counterexample :
    (∃ ev ∈ [CloseEvent.bodyRaise true false], interruptRaised ev = true) ∧
    CloseCameraRun [CloseEvent.bodyRaise true false] = none := by
  exact ⟨⟨CloseEvent.bodyRaise true false, by simp, rfl⟩, rfl⟩

/-- C8 (amended): the retrying stop/close sequence terminates exactly when some
iteration's body completes, or a `KeyboardInterrupt` is delivered during the
inner handler's backoff sleep (where it escapes the bare `except:` and reaches
`except KeyboardInterrupt`); an interrupt delivered during the body itself is
swallowed by the bare `except:` and does not break the loop. -/
theorem C8_close_terminates (evs : List CloseEvent)
    (h : ∃ ev ∈ evs,
      ev = CloseEvent.bodyOk ∨ ∃ ki, ev = CloseEvent.bodyRaise ki true) :
    ∃ r, CloseCameraRun evs = some r := by
  induction evs with
  | nil => simp at h
  | cons e rest ih =>
      obtain ⟨ev, hmem, hcase⟩ := h
      cases e with
      | bodyOk => exact ⟨(CloseExit.closed, 1), rfl⟩
      | bodyRaise ki kih =>
          cases kih with
          | true => exact ⟨(CloseExit.interrupted, 1), rfl⟩
          | false =>
              have hmem2 : ev ∈ rest := by
                rcases List.mem_cons.mp hmem with heq | hm
                · exfalso
                  subst heq
                  rcases hcase with h1 | ⟨ki2, h2⟩
                  · exact CloseEvent.noConfusion h1
                  · have := (CloseEvent.bodyRaise.injEq ki false ki2 true).mp h2
                    exact Bool.false_ne_true this.2
                · exact hm
              obtain ⟨r, hr⟩ := ih ⟨ev, hmem2, hcase⟩
              exact ⟨(r.1, r.2 + 1), by simp [CloseCameraRun, hr]⟩

/-- Witness for C8: the close operations never succeed, but a
`KeyboardInterrupt` delivered during the second iteration's handler sleep
terminates the retry loop. -/
theorem C8_close_terminates_witness :
    (∃ ev ∈ [CloseEvent.bodyRaise false false, CloseEvent.bodyRaise false true],
      ev = CloseEvent.bodyOk ∨ ∃ ki, ev = CloseEvent.bodyRaise ki true) ∧
    ∃ r, CloseCameraRun
      [CloseEvent.bodyRaise false false, CloseEvent.bodyRaise false true]
        = some r :=
  ⟨⟨CloseEvent.bodyRaise false true, by simp, Or.inr ⟨false, rfl⟩⟩,
   C8_close_terminates _ ⟨CloseEvent.bodyRaise false true, by simp,
     Or.inr ⟨false, rfl⟩⟩⟩

/-!
## Claim C9
-/

/-- C9: the configuration sequence of `prepare_camera` short-circuits on the
first failing step — the overall result is `True` exactly when all six steps
succeed, and the number of configuration functions actually invoked is the
leading run of successes plus the one failing call (all six when nothing
fails). -/
theorem C9_prepare_camera_shortcircuit :
    ∀ acqOk expOk gainOk gammaOk trigOk bufOk : Bool,
      prepare_camera acqOk expOk gainOk gammaOk trigOk bufOk
        = (acqOk && expOk && gainOk && gammaOk && trigOk && bufOk) ∧
      prepare_camera_calls acqOk expOk gainOk gammaOk trigOk
        = ([acqOk, expOk, gainOk, gammaOk, trigOk].takeWhile id).length + 1 := by
  decide

/-- Witness for C9 at a concrete outcome vector: the gain step fails, the
result is failure, and exactly three configuration calls were made. -/
theorem C9_prepare_camera_witness :
    prepare_camera true true false true true true = false ∧
    prepare_camera_calls true true false true true = 3 := by
  constructor
  · rw [(C9_prepare_camera_shortcircuit true true false true true true).1]
    decide
  · rw [(C9_prepare_camera_shortcircuit true true false true true true).2]
    decide

/-!
## Claim C6
-/

/-- C6: a recoverable acquisition error (`SpinnakerException`, frame not yet
available) leaves the session state unchanged — no counter incremented, no
record appended, no queue touched — and only runs the sub-millisecond backoff
handler; and three consecutive such errors followed by one success append
exactly one GrabRecord, increase the frame counter by exactly one, and do not
terminate the loop. -/
theorem C6_recoverable_error (p : CamParams) (s : LoopState) (ts : ℤ) (f : Frame)
    (htarget : (s.cnt : ℚ) < numImagesToGrab p) :
    (step p s nyaInput
      = ({ s with grabAttempts := s.grabAttempts + 1, backoffs := s.backoffs + 1 },
         LoopExit.running)) ∧
    ((runLoopAux p s [nyaInput, nyaInput, nyaInput, succInput ts f]).2
        = LoopExit.running ∧
     (runLoopAux p s [nyaInput, nyaInput, nyaInput, succInput ts f]).1.cnt
        = s.cnt + 1 ∧
     (runLoopAux p s [nyaInput, nyaInput, nyaInput, succInput ts f]).1.frameNumbers
        = s.frameNumbers ++ [s.cnt + 1] ∧
     (runLoopAux p s [nyaInput, nyaInput, nyaInput, succInput ts f]).1.timeStamps.length
        = s.timeStamps.length + 1 ∧
     (runLoopAux p s [nyaInput, nyaInput, nyaInput, succInput ts f]).1.finalizations
        = s.finalizations) := by
  have h1 := step_nya p s nyaInput rfl rfl htarget rfl
  refine ⟨h1, ?_⟩
  have h2 := step_nya p
    { s with grabAttempts := s.grabAttempts + 1, backoffs := s.backoffs + 1 }
    nyaInput rfl rfl htarget rfl
  have h3 := step_nya p
    { s with grabAttempts := s.grabAttempts + 1 + 1, backoffs := s.backoffs + 1 + 1 }
    nyaInput rfl rfl htarget rfl
  have h4 := step_success p
    { s with grabAttempts := s.grabAttempts + 1 + 1 + 1, backoffs := s.backoffs + 1 + 1 + 1 }
    (succInput ts f) ts f rfl rfl htarget rfl
  have hrun : runLoopAux p s [nyaInput, nyaInput, nyaInput, succInput ts f]
      = (processSuccess p
          { s with grabAttempts := s.grabAttempts + 1 + 1 + 1,
                   backoffs := s.backoffs + 1 + 1 + 1 } ts f, LoopExit.running) := by
    rw [runLoopAux_cons_of_step p _ _ _ _ h1,
      runLoopAux_cons_of_step p _ _ _ _ h2,
      runLoopAux_cons_of_step p _ _ _ _ h3,
      runLoopAux_cons_of_step p _ _ _ _ h4,
      runLoopAux_nil]
  rw [hrun]
  refine ⟨rfl, by simp, by simp, by simp, by simp⟩

/-- Witness for C6 at a concrete configuration and state. -/
theorem C6_recoverable_error_witness :
    ((initState.cnt : ℚ) < numImagesToGrab p30) ∧
    ((step p30 initState nyaInput
      = ({ initState with grabAttempts := 1, backoffs := 1 }, LoopExit.running)) ∧
    ((runLoopAux p30 initState [nyaInput, nyaInput, nyaInput, succInput 5 [[1]]]).2
        = LoopExit.running ∧
     (runLoopAux p30 initState [nyaInput, nyaInput, nyaInput, succInput 5 [[1]]]).1.cnt
        = initState.cnt + 1 ∧
     (runLoopAux p30 initState
        [nyaInput, nyaInput, nyaInput, succInput 5 [[1]]]).1.frameNumbers
        = initState.frameNumbers ++ [initState.cnt + 1] ∧
     (runLoopAux p30 initState
        [nyaInput, nyaInput, nyaInput, succInput 5 [[1]]]).1.timeStamps.length
        = initState.timeStamps.length + 1 ∧
     (runLoopAux p30 initState
        [nyaInput, nyaInput, nyaInput, succInput 5 [[1]]]).1.finalizations
        = initState.finalizations)) :=
  ⟨by norm_num [initState, numImagesToGrab, p30],
   C6_recoverable_error p30 initState 5 [[1]]
     (by norm_num [initState, numImagesToGrab, p30])⟩

/-!
## Claim C10
-/

/-- When the chunk length in frames is 0, or it is 1 and the first frame's
relative timestamp is exactly 0, the throughput report raises
`ZeroDivisionError`. -/
lemma chunkOutcome_chunk01 (p : CamParams) (cnt1 : ℕ) (grabtime : ℚ)
    (h : chunkLengthInFrames p = 0 ∨ (chunkLengthInFrames p = 1 ∧ grabtime = 0)) :
    chunkOutcome p cnt1 grabtime = (1, 0) := by
  rcases h with h0 | ⟨h1, hg⟩
  · simp [chunkOutcome, h0]
  · simp [chunkOutcome, h1, hg]

/-- Components of the success-block tail when the display stage does not raise
and the throughput report divides by zero. -/
lemma successTail_chunk01 (p : CamParams) (cnt1 : ℕ) (grabtime : ℚ) (f : Frame)
    (hchunk : chunkLengthInFrames p = 0 ∨ (chunkLengthInFrames p = 1 ∧ grabtime = 0))
    (hdisp : ratioPush (frameRatioOf p) cnt1 = Except.ok false ∨
             (ratioPush (frameRatioOf p) cnt1 = Except.ok true ∧
               1 ≤ p.displayDownsample)) :
    (successTail p cnt1 grabtime f).2.1 = 1 ∧
    (successTail p cnt1 grabtime f).2.2.1 = 1 ∧
    (successTail p cnt1 grabtime f).2.2.2 = 0 := by
  have hco := chunkOutcome_chunk01 p cnt1 grabtime hchunk
  rcases hdisp with hfalse | ⟨htrue, hd⟩
  · simp [successTail, hfalse, hco]
  · have hdz : p.displayDownsample ≠ 0 := Nat.one_le_iff_ne_zero.mp hd
    simp [successTail, htrue, strideSlice, hdz, hco]

/-- C10: when `round(chunkLengthInSec * frameRate)` is 0 or 1, processing the
first successful frame reaches the throughput report with `cnt % 0` (chunk 0)
or `cnt / grabtime` where the first frame's relative timestamp is exactly 0
(chunk 1); the `ZeroDivisionError` is caught by the unclassified-error handler
(not the `SpinnakerException` one) and the loop continues, with the frame's
GrabRecord already appended and its buffer already released.  The hypothesis
`hdisp` states that the display stage itself does not raise (display off, or a
non-pushing or well-configured push), so the report stage is reached. -/
theorem C10_first_frame_division_by_zero (p : CamParams) (s : LoopState)
    (ts : ℤ) (f : Frame) (h0 : s.cnt = 0)
    (hchunk : chunkLengthInFrames p = 0 ∨ chunkLengthInFrames p = 1)
    (htarget : (0 : ℚ) < numImagesToGrab p)
    (hdisp : ratioPush (frameRatioOf p) 1 = Except.ok false ∨
             (ratioPush (frameRatioOf p) 1 = Except.ok true ∧
               1 ≤ p.displayDownsample)) :
    (step p s (succInput ts f)).2 = LoopExit.running ∧
    (step p s (succInput ts f)).1.loggedErrors = s.loggedErrors + 1 ∧
    (step p s (succInput ts f)).1.backoffs = s.backoffs ∧
    (step p s (succInput ts f)).1.chunkReports = s.chunkReports ∧
    (step p s (succInput ts f)).1.cnt = 1 ∧
    (step p s (succInput ts f)).1.frameNumbers = s.frameNumbers ++ [1] ∧
    (step p s (succInput ts f)).1.released = s.released + 1 := by
  have hlt : (s.cnt : ℚ) < numImagesToGrab p := by rw [h0]; simpa using htarget
  have hstep := step_success p s (succInput ts f) ts f rfl rfl hlt rfl
  rw [hstep]
  have htail := successTail_chunk01 p 1 0 f
    (by rcases hchunk with h | h; exacts [Or.inl h, Or.inr ⟨h, rfl⟩]) hdisp
  refine ⟨rfl, ?_, ?_, ?_, ?_, ?_, ?_⟩ <;>
    simp [h0, relTs_self, htail.1, htail.2.1, htail.2.2]

/-- A configuration whose chunk length in frames is `round(0 * 30) = 0` and
whose display is off. -/
def pChunk0 : CamParams :=
  { frameRate := 30, recTimeInSec := 10, chunkLengthInSec := 0,
    displayFrameRate := 0, displayDownsample := 1 }

/-- Witness for C10 at a concrete configuration with chunk length 0. -/
theorem C10_first_frame_division_by_zero_witness :
    (chunkLengthInFrames pChunk0 = 0 ∨ chunkLengthInFrames pChunk0 = 1) ∧
    ((step pChunk0 initState (succInput 42 [[7]])).2 = LoopExit.running ∧
     (step pChunk0 initState (succInput 42 [[7]])).1.loggedErrors
        = initState.loggedErrors + 1 ∧
     (step pChunk0 initState (succInput 42 [[7]])).1.backoffs = initState.backoffs ∧
     (step pChunk0 initState (succInput 42 [[7]])).1.chunkReports
        = initState.chunkReports ∧
     (step pChunk0 initState (succInput 42 [[7]])).1.cnt = 1 ∧
     (step pChunk0 initState (succInput 42 [[7]])).1.frameNumbers
        = initState.frameNumbers ++ [1] ∧
     (step pChunk0 initState (succInput 42 [[7]])).1.released
        = initState.released + 1) := by
  have hchunk : chunkLengthInFrames pChunk0 = 0 := by
    norm_num [chunkLengthInFrames, pChunk0, pythonRound]
  have hinf : frameRatioOf pChunk0 = FrameRatioVal.inf := by
    norm_num [frameRatioOf, pChunk0]
  refine ⟨Or.inl hchunk, ?_⟩
  exact C10_first_frame_division_by_zero pChunk0 initState 42 [[7]] rfl
    (Or.inl hchunk) (by norm_num [numImagesToGrab, pChunk0])
    (Or.inl (by rw [hinf]; rfl))


/-!
## Claim C7
-/

/-- A trace of successful grabs that fits under the target count runs to
completion: every input is consumed, the counter and the attempt counter each
grow by the trace length, and the loop neither finalizes nor ends. -/
lemma run_success_count (p : CamParams) :
    ∀ (l : List LoopInput) (s : LoopState),
      (∀ inp ∈ l, inp.stop = false ∧ inp.streaming = true ∧
        ∃ ts fr, inp.outcome = GrabOutcome.success ts fr) →
      ((s.cnt : ℚ) + l.length ≤ numImagesToGrab p) →
      (runLoopAux p s l).2 = LoopExit.running ∧
      (runLoopAux p s l).1.cnt = s.cnt + l.length ∧
      (runLoopAux p s l).1.grabAttempts = s.grabAttempts + l.length := by
  intro l
  induction l with
  | nil => intro s _ _; simp
  | cons inp rest ih =>
      intro s hl hcnt
      obtain ⟨hstop, hstream, ts, fr, hout⟩ := hl inp (List.mem_cons_self inp rest)
      have hcnt1 : (s.cnt : ℚ) + (rest.length + 1) ≤ numImagesToGrab p := by
        have : ((inp :: rest).length : ℚ) = (rest.length : ℚ) + 1 := by
          push_cast [List.length_cons]; ring
        rw [← this]; exact hcnt
      have hlt : (s.cnt : ℚ) < numImagesToGrab p := by
        have hnn : (0 : ℚ) ≤ (rest.length : ℚ) := by positivity
        linarith
      have hstep := step_success p s inp ts fr hstream hstop hlt hout
      rw [runLoopAux_cons_of_step p s _ inp rest hstep]
      have ihh := ih (processSuccess p s ts fr)
        (fun i hi => hl i (List.mem_cons_of_mem inp hi))
        (by simp only [processSuccess_cnt]; push_cast; linarith)
      refine ⟨ihh.1, ?_, ?_⟩
      · rw [ihh.2.1]; simp [List.length_cons]; omega
      · rw [ihh.2.2]; simp [List.length_cons]; omega

/-- The section-8 scenario: 300 successful grabs fill the target exactly; the
301st iteration exits through the stop check without another grab attempt. -/
lemma scenario_run :
    (GrabFrames p30 scenarioInputs).2 = LoopExit.finalized ∧
    (GrabFrames p30 scenarioInputs).1.cnt = 300 ∧
    (GrabFrames p30 scenarioInputs).1.frameNumbers = List.range' 1 300 ∧
    (GrabFrames p30 scenarioInputs).1.grabAttempts = 300 := by
  have hsplit : scenarioInputs
      = successRun 300 (fun i => (i : ℤ) * 33333333) [[0]]
          ++ [succInput ((300 : ℤ) * 33333333) [[0]]] := by
    unfold scenarioInputs successRun
    rw [show (301 : ℕ) = 300 + 1 from rfl, List.range_succ, List.map_append]
    rfl
  have hmem : ∀ inp ∈ successRun 300 (fun i => (i : ℤ) * 33333333) [[0]],
      inp.stop = false ∧ inp.streaming = true ∧
      ∃ ts fr, inp.outcome = GrabOutcome.success ts fr := by
    intro inp hi
    simp only [successRun, List.mem_map, List.mem_range] at hi
    obtain ⟨i, _, rfl⟩ := hi
    exact ⟨rfl, rfl, (i : ℤ) * 33333333, [[0]], rfl⟩
  have hlen : (successRun 300 (fun i => (i : ℤ) * 33333333) [[0]]).length = 300 := by
    simp [successRun]
  have hbound : ((initState.cnt : ℚ)
      + (successRun 300 (fun i => (i : ℤ) * 33333333) [[0]]).length
        ≤ numImagesToGrab p30) := by
    rw [hlen]; norm_num [initState, numImagesToGrab, p30]
  have hfirst := run_success_count p30 _ initState hmem hbound
  have hfn := run_frameNumbers p30
    (successRun 300 (fun i => (i : ℤ) * 33333333) [[0]]) initState rfl
  set s300 := (runLoopAux p30 initState
    (successRun 300 (fun i => (i : ℤ) * 33333333) [[0]])).1 with hs300
  have hcnt300 : s300.cnt = 300 := by
    rw [hfirst.2.1, hlen]; simp [initState]
  have hga300 : s300.grabAttempts = 300 := by
    rw [hfirst.2.2, hlen]; simp [initState]
  have hstep := step_finalized p30 s300 (succInput ((300 : ℤ) * 33333333) [[0]])
    rfl (Or.inr (by rw [hcnt300]; norm_num [numImagesToGrab, p30]))
  have hrun : GrabFrames p30 scenarioInputs
      = (finalizeState s300, LoopExit.finalized) := by
    show runLoopAux p30 initState scenarioInputs = _
    rw [hsplit, runLoopAux_append, if_pos hfirst.1, ← hs300,
      runLoopAux_cons_of_halt p30 s300 _ _ [] _ (by simp) hstep]
  rw [hrun]
  refine ⟨rfl, by simpa using hcnt300, ?_, by simpa using hga300⟩
  show s300.frameNumbers = List.range' 1 300
  rw [← hcnt300]
  exact hfn

/-- C7: the target total frame count is `recTimeInSec * frameRate`; the stop
check is evaluated at the head of every iteration and takes priority over
grabbing (an iteration whose stop condition holds finalizes without touching
`GetNextImage` or the counter); and in the concrete scenario with
`frameRate = 30`, `recTimeInSec = 10` and 301 available grabs, the loop
terminates through the stop check with exactly 300 records `1..300` and
exactly 300 grab attempts — the 301st grab is never attempted. -/
theorem C7_target_count_and_stop_priority (p : CamParams) (s : LoopState)
    (inp : LoopInput) (rest : List LoopInput) (hstream : inp.streaming = true)
    (hhalt : inp.stop = true ∨ numImagesToGrab p ≤ (s.cnt : ℚ)) :
    numImagesToGrab p = p.recTimeInSec * p.frameRate ∧
    (runLoopAux p s (inp :: rest)).2 = LoopExit.finalized ∧
    (runLoopAux p s (inp :: rest)).1.cnt = s.cnt ∧
    (runLoopAux p s (inp :: rest)).1.grabAttempts = s.grabAttempts ∧
    (GrabFrames p30 scenarioInputs).2 = LoopExit.finalized ∧
    (GrabFrames p30 scenarioInputs).1.cnt = 300 ∧
    (GrabFrames p30 scenarioInputs).1.frameNumbers = List.range' 1 300 ∧
    (GrabFrames p30 scenarioInputs).1.grabAttempts = 300 := by
  have hstep := step_finalized p s inp hstream hhalt
  have hrun := runLoopAux_cons_of_halt p s _ inp rest _ (by simp) hstep
  rw [hrun]
  exact ⟨rfl, rfl, rfl, rfl, scenario_run.1, scenario_run.2.1,
    scenario_run.2.2.1, scenario_run.2.2.2⟩

/-- Witness for C7: the stop-priority part applied to a concrete raised stop
signal (the scenario part is closed already). -/
theorem C7_target_count_and_stop_priority_witness :
    numImagesToGrab p30 = p30.recTimeInSec * p30.frameRate ∧
    (runLoopAux p30 initState [stopInput]).2 = LoopExit.finalized ∧
    (runLoopAux p30 initState [stopInput]).1.cnt = initState.cnt ∧
    (runLoopAux p30 initState [stopInput]).1.grabAttempts
      = initState.grabAttempts ∧
    (GrabFrames p30 scenarioInputs).2 = LoopExit.finalized ∧
    (GrabFrames p30 scenarioInputs).1.cnt = 300 ∧
    (GrabFrames p30 scenarioInputs).1.frameNumbers = List.range' 1 300 ∧
    (GrabFrames p30 scenarioInputs).1.grabAttempts = 300 :=
  C7_target_count_and_stop_priority p30 initState stopInput [] rfl (Or.inl rfl)

/-!
## Claim C5
-/

/-- Processing a successful grab extends the timestamp invariant by the grabbed
hardware timestamp. -/
lemma tsinv_success (p : CamParams) (s : LoopState) (ts : ℤ) (f : Frame)
    (hw : List ℤ) (h : TsInv s hw) : TsInv (processSuccess p s ts f) (hw ++ [ts]) := by
  obtain ⟨hlen, hmap, hhead⟩ := h
  by_cases h0 : s.cnt = 0
  · have hw0 : hw = [] := List.length_eq_zero.mp (h0 ▸ hlen).symm
    subst hw0
    refine ⟨by simpa using hlen, ?_, ?_⟩
    · simp only [processSuccess_timeStamps, processSuccess_timeFirstGrab, h0,
        if_pos rfl]
      simp only [List.map_nil] at hmap
      simp [hmap]
    · intro _
      simp [h0]
  · have hwne : hw ≠ [] := by
      intro hnil
      rw [hnil] at hlen
      exact h0 (by simpa using hlen)
    refine ⟨by simp [hlen], ?_, ?_⟩
    · simp [h0, hmap]
    · intro _
      simp only [processSuccess_timeFirstGrab, if_neg h0]
      rw [List.head?_append, hhead hwne]
      rfl

/-- Running the loop extends the processed-timestamp list by a prefix of the
trace's successful timestamps, preserving the timestamp invariant. -/
lemma run_ts (p : CamParams) :
    ∀ (l : List LoopInput) (s : LoopState) (hw : List ℤ), TsInv s hw →
      ∃ pre suf, successTs l = pre ++ suf ∧
        TsInv (runLoopAux p s l).1 (hw ++ pre) := by
  intro l
  induction l with
  | nil =>
      intro s hw h
      exact ⟨[], [], rfl, by simpa using h⟩
  | cons inp rest ih =>
      intro s hw h
      by_cases hstr : inp.streaming = false
      · rw [runLoopAux_cons_of_halt p s s inp rest _ (by simp)
          (step_streamEnded p s inp hstr)]
        exact ⟨[], successTs (inp :: rest), rfl, by simpa using h⟩
      · have hstr1 : inp.streaming = true := by simpa using hstr
        by_cases hhalt : inp.stop = true ∨ numImagesToGrab p ≤ (s.cnt : ℚ)
        · rw [runLoopAux_cons_of_halt p s _ inp rest _ (by simp)
            (step_finalized p s inp hstr1 hhalt)]
          refine ⟨[], successTs (inp :: rest), rfl, ?_⟩
          obtain ⟨hlen, hmap, hhead⟩ := h
          exact ⟨by simpa using hlen, by simpa using hmap, by simpa using hhead⟩
        · push_neg at hhalt
          obtain ⟨hstop, hlt⟩ := hhalt
          have hstop1 : inp.stop = false := by simpa using hstop
          cases ho : inp.outcome with
          | notYetAvailable =>
              rw [runLoopAux_cons_of_step p s _ inp rest
                (step_nya p s inp hstr1 hstop1 hlt ho)]
              obtain ⟨pre, suf, hps, hinv⟩ := ih
                { s with grabAttempts := s.grabAttempts + 1,
                         backoffs := s.backoffs + 1 } hw h
              exact ⟨pre, suf, by simp [successTs, ho, hps], hinv⟩
          | success ts fr =>
              rw [runLoopAux_cons_of_step p s _ inp rest
                (step_success p s inp ts fr hstr1 hstop1 hlt ho)]
              obtain ⟨pre, suf, hps, hinv⟩ := ih _ (hw ++ [ts])
                (tsinv_success p s ts fr hw h)
              refine ⟨ts :: pre, suf, by simp [successTs, ho, hps], ?_⟩
              have heq : hw ++ ts :: pre = (hw ++ [ts]) ++ pre := by simp
              rw [heq]
              exact hinv

/-- C5: for every completed session whose successful grabs carry monotonically
non-decreasing hardware timestamps, the stored timestamps are non-decreasing,
the first stored timestamp is exactly 0, and every stored timestamp is computed
as (hardware timestamp minus the first grab's hardware timestamp) / 1e9. -/
theorem C5_timestamps_monotone (p : CamParams) (inputs : List LoopInput)
    (hmono : List.Chain' (· ≤ ·) (successTs inputs))
    (hdone : (GrabFrames p inputs).2 ≠ LoopExit.running) :
    List.Chain' (· ≤ ·) (GrabFrames p inputs).1.timeStamps ∧
    ((GrabFrames p inputs).1.timeStamps ≠ [] →
      (GrabFrames p inputs).1.timeStamps.head? = some 0) ∧
    ∃ hw suf, successTs inputs = hw ++ suf ∧
      (GrabFrames p inputs).1.timeStamps
        = hw.map (relTs (GrabFrames p inputs).1.timeFirstGrab) := by
  obtain ⟨pre, suf, hps, hinv⟩ := run_ts p inputs initState []
    ⟨rfl, rfl, by simp⟩
  obtain ⟨hlen, hmap, hhead⟩ := hinv
  simp only [GrabFrames]
  simp only [List.nil_append] at hlen hmap hhead
  have hchain : List.Chain' (· ≤ ·) pre := by
    rw [hps] at hmono
    exact (List.chain'_append.mp hmono).1
  set t0 := (GrabFrames p inputs).1.timeFirstGrab with ht0
  refine ⟨?_, ?_, pre, suf, hps, hmap⟩
  · rw [hmap]
    refine (List.chain'_map (relTs t0)).mpr (hchain.imp ?_)
    intro a b hab
    unfold relTs
    have h2 : ((a - t0 : ℤ) : ℚ) ≤ ((b - t0 : ℤ) : ℚ) := by
      exact_mod_cast sub_le_sub_right hab t0
    exact div_le_div_of_nonneg_right h2 (by norm_num)
  · intro hne
    have hpre : pre ≠ [] := by
      intro hnil
      rw [hmap, hnil] at hne
      exact hne rfl
    rw [hmap, List.head?_map, hhead hpre]
    simp

/-- Witness for C5: the two-iteration stop-signal session with one grab; its
only successful timestamp list `[5]` is a chain, the session completes, its
stored timestamps are the chain `[0]` with head exactly 0. -/
theorem C5_timestamps_monotone_witness :
    List.Chain' (· ≤ ·) (successTs w1Inputs) ∧
    (GrabFrames p30 w1Inputs).2 ≠ LoopExit.running ∧
    (List.Chain' (· ≤ ·) (GrabFrames p30 w1Inputs).1.timeStamps ∧
     ((GrabFrames p30 w1Inputs).1.timeStamps ≠ [] →
       (GrabFrames p30 w1Inputs).1.timeStamps.head? = some 0) ∧
     ∃ hw suf, successTs w1Inputs = hw ++ suf ∧
       (GrabFrames p30 w1Inputs).1.timeStamps
         = hw.map (relTs (GrabFrames p30 w1Inputs).1.timeFirstGrab)) :=
  ⟨by simp [w1Inputs, successTs, succInput, stopInput],
   by rw [w1_run]; simp,
   C5_timestamps_monotone p30 w1Inputs
     (by simp [w1Inputs, successTs, succInput, stopInput])
     (by rw [w1_run]; simp)⟩

/-!
## Claim C4
-/

/-- Configuration with `displayFrameRate` above `frameRate`: the claim's
clamped ratio would be `max 1 (round(30/60)) = 1`, but cam.py line 72 sets
`frameRatio = frameRate = 30` instead. -/
def p4 : CamParams :=
  { frameRate := 30, recTimeInSec := 10, chunkLengthInSec := 1,
    displayFrameRate := 60, displayDownsample := 1 }

/-- Configuration with `displayFrameRate = 10 ≤ frameRate = 30`, giving the
integer cadence ratio `round(30/10) = 3` and downsample stride 2. -/
def p4w : CamParams :=
  { frameRate := 30, recTimeInSec := 10, chunkLengthInSec := 1,
    displayFrameRate := 10, displayDownsample := 2 }

/-- C4, counterexample: with `frameRate = 30` and `displayFrameRate = 60`, the
claim's cadence (`ratio = round(frameRate/displayFrameRate)` clamped to at
least 1, so ratio 1) predicts `floor(1/1) = 1` display push for a session of
one successful grab; the code takes the `displayFrameRate > frameRate` branch,
sets `frameRatio = frameRate = 30`, and pushes nothing. -/
theorem C4_counterexample :
    specRatioClamped p4 = 1 ∧
    (1 : ℕ) / (specRatioClamped p4).toNat = 1 ∧
    (GrabFrames p4 [succInput 0 [[1]]]).1.dispQueue.length = 0 := by
  have hspec : specRatioClamped p4 = 1 := by
    norm_num [specRatioClamped, p4, pythonRound]
  refine ⟨hspec, by rw [hspec]; rfl, ?_⟩
  have hratio : frameRatioOf p4 = FrameRatioVal.rat 30 := by
    norm_num [frameRatioOf, p4]
  have hden : ¬ ((1 : ℚ)/30).den = 1 := by
    rw [Rat.den_eq_one_iff]
    intro h
    have h30 : ((((1:ℚ)/30).num : ℚ)) * 30 = 1 := by rw [h]; norm_num
    have hz : (((1:ℚ)/30).num * 30 : ℤ) = 1 := by exact_mod_cast h30
    omega
  have hpush : ratioPush (frameRatioOf p4) 1 = Except.ok false := by
    rw [hratio]
    simp [ratioPush, hden]
  have htail : (successTail p4 1 0 [[1]]).1 = [] := by
    simp [successTail, hpush]
  have hstep := step_success p4 initState (succInput 0 [[1]]) 0 [[1]] rfl rfl
    (by norm_num [initState, numImagesToGrab, p4]) rfl
  have hrun : GrabFrames p4 [succInput 0 [[1]]]
      = (processSuccess p4 initState 0 [[1]], LoopExit.running) := by
    show runLoopAux p4 initState [succInput 0 [[1]]] = _
    rw [runLoopAux_cons_of_step p4 _ _ _ _ hstep, runLoopAux_nil]
  rw [hrun]
  simp [initState, htail]

/-- The display stage pushes nothing when `frameRatio` is infinite. -/
lemma successTail_fst_inf (p : CamParams) (c : ℕ) (g : ℚ) (f : Frame)
    (hinf : frameRatioOf p = FrameRatioVal.inf) :
    (successTail p c g f).1 = [] := by
  simp [successTail, hinf, ratioPush]

/-- The display stage with an integer nonzero `frameRatio` and a positive
downsample stride pushes the downsampled copy exactly on divisible counters. -/
lemma successTail_fst_int (p : CamParams) (k : ℤ) (hk : k ≠ 0)
    (hr : frameRatioOf p = FrameRatioVal.int k) (hd : p.displayDownsample ≠ 0)
    (c : ℕ) (g : ℚ) (f : Frame) :
    (successTail p c g f).1
      = if k ∣ (c : ℤ) then [downsampleFrame p.displayDownsample f] else [] := by
  by_cases hdvd : k ∣ (c : ℤ)
  · simp [successTail, hr, ratioPush, hk, hdvd, strideSlice, hd, downsampleFrame]
  · simp [successTail, hr, ratioPush, hk, hdvd]

/-- With the display off (`frameRatio` infinite), no run ever pushes a frame to
the display queue. -/
lemma run_disp_inf (p : CamParams) (hinf : frameRatioOf p = FrameRatioVal.inf)
    (l : List LoopInput) (s : LoopState) (h : s.dispQueue = []) :
    (runLoopAux p s l).1.dispQueue = [] := by
  exact run_preserve p (fun s => s.dispQueue = [])
    (fun s hP => by simpa using hP)
    (fun s ts f hP => by simp [hP, successTail_fst_inf p _ _ _ hinf])
    (fun s hP => by simpa using hP) l s h

/-- Over a trace of successful grabs of a fixed frame, the display queue is a
replicated list of the downsampled copy, one entry per multiple of the cadence
ratio reached by the counter. -/
lemma run_disp_int (p : CamParams) (k : ℤ) (hr : frameRatioOf p = FrameRatioVal.int k)
    (hk : 1 ≤ k) (hd : 1 ≤ p.displayDownsample) (f : Frame) :
    ∀ (l : List LoopInput) (s : LoopState),
      (∀ inp ∈ l, inp.stop = false ∧ inp.streaming = true ∧
        ∃ ts, inp.outcome = GrabOutcome.success ts f) →
      ((s.cnt : ℚ) + l.length ≤ numImagesToGrab p) →
      s.dispQueue = List.replicate (s.cnt / k.toNat)
        (downsampleFrame p.displayDownsample f) →
      (runLoopAux p s l).1.dispQueue
        = List.replicate ((s.cnt + l.length) / k.toNat)
            (downsampleFrame p.displayDownsample f) := by
  have hknz : k ≠ 0 := by omega
  have hdnz : p.displayDownsample ≠ 0 := Nat.one_le_iff_ne_zero.mp hd
  have hcast : ∀ c : ℕ, (k ∣ (c : ℤ)) ↔ (k.toNat ∣ c) := by
    intro c
    constructor
    · intro hdvd
      rw [← Int.natCast_dvd_natCast]
      rwa [Int.toNat_of_nonneg (by omega : (0:ℤ) ≤ k)]
    · intro hdvd
      have := Int.natCast_dvd_natCast.mpr hdvd
      rwa [Int.toNat_of_nonneg (by omega : (0:ℤ) ≤ k)] at this
  intro l
  induction l with
  | nil =>
      intro s _ _ hq
      simpa using hq
  | cons inp rest ih =>
      intro s hl hcnt hq
      obtain ⟨hstop, hstream, ts, hout⟩ := hl inp (List.mem_cons_self inp rest)
      have hcnt1 : (s.cnt : ℚ) + (rest.length + 1) ≤ numImagesToGrab p := by
        have hlen : ((inp :: rest).length : ℚ) = (rest.length : ℚ) + 1 := by
          push_cast [List.length_cons]; ring
        rw [← hlen]; exact hcnt
      have hlt : (s.cnt : ℚ) < numImagesToGrab p := by
        have hnn : (0 : ℚ) ≤ (rest.length : ℚ) := by positivity
        linarith
      have hstep := step_success p s inp ts f hstream hstop hlt hout
      rw [runLoopAux_cons_of_step p s _ inp rest hstep]
      have hq1 : (processSuccess p s ts f).dispQueue
          = List.replicate ((s.cnt + 1) / k.toNat)
              (downsampleFrame p.displayDownsample f) := by
        rw [processSuccess_dispQueue,
          successTail_fst_int p k hknz hr hdnz (s.cnt + 1) _ f, hq,
          Nat.succ_div]
        by_cases hdvd : k.toNat ∣ s.cnt + 1
        · rw [if_pos ((hcast (s.cnt + 1)).mpr hdvd), if_pos hdvd,
            List.replicate_succ']
        · rw [if_neg (fun hc => hdvd ((hcast (s.cnt + 1)).mp hc)), if_neg hdvd]
          simp
      have ihh := ih (processSuccess p s ts f)
        (fun i hi => hl i (List.mem_cons_of_mem inp hi))
        (by simp only [processSuccess_cnt]; push_cast; linarith)
        (by simpa using hq1)
      have harg : (processSuccess p s ts f).cnt + rest.length
          = s.cnt + (inp :: rest).length := by
        simp [List.length_cons]
        omega
      rw [ihh, harg]

/-- C4 (amended): the display cadence as implemented.  If `displayFrameRate ≤ 0`
no frame is ever pushed to the Display Sink.  If `displayFrameRate` exceeds
`frameRate` the code does not use the claim's clamped
`round(frameRate/displayFrameRate)`: it sets `frameRatio` to the raw
`frameRate` value.  When the computed `frameRatio` is the integer
`k = round(frameRate/displayFrameRate) ≥ 1` (the `0 < displayFrameRate ≤
frameRate` case) and the downsample stride is at least 1, a session of `n`
successful grabs pushes exactly `floor(n / k)` stride-downsampled copies. -/
theorem C4_display_cadence :
    (∀ (p : CamParams) (inputs : List LoopInput), p.displayFrameRate ≤ 0 →
      (GrabFrames p inputs).1.dispQueue = []) ∧
    (∀ p : CamParams, 0 < p.displayFrameRate → p.frameRate < p.displayFrameRate →
      frameRatioOf p = FrameRatioVal.rat p.frameRate) ∧
    (∀ (p : CamParams) (k : ℤ) (n : ℕ) (tsf : ℕ → ℤ) (f : Frame),
      frameRatioOf p = FrameRatioVal.int k → 1 ≤ k → 1 ≤ p.displayDownsample →
      ((n : ℚ) ≤ numImagesToGrab p) →
      (GrabFrames p (successRun n tsf f)).1.dispQueue
        = List.replicate (n / k.toNat) (downsampleFrame p.displayDownsample f)) := by
  refine ⟨?_, ?_, ?_⟩
  · intro p inputs hle
    exact run_disp_inf p (by simp [frameRatioOf, hle]) inputs initState rfl
  · intro p h1 h2
    rw [frameRatioOf, if_neg (not_le.mpr h1), if_neg (not_le.mpr h2)]
  · intro p k n tsf f hr hk hd hn
    have hmem : ∀ inp ∈ successRun n tsf f,
        inp.stop = false ∧ inp.streaming = true ∧
        ∃ ts, inp.outcome = GrabOutcome.success ts f := by
      intro inp hi
      simp only [successRun, List.mem_map, List.mem_range] at hi
      obtain ⟨i, _, rfl⟩ := hi
      exact ⟨rfl, rfl, tsf i, rfl⟩
    have hlen : (successRun n tsf f).length = n := by simp [successRun]
    have := run_disp_int p k hr hk hd f (successRun n tsf f) initState hmem
      (by rw [hlen]; simpa [initState] using hn) (by simp [initState])
    rw [GrabFrames, this, hlen]
    simp [initState]

/-- Witness for C4: with `frameRate = 30`, `displayFrameRate = 10` the cadence
ratio is the integer 3, and 7 successful grabs produce `floor(7/3) = 2`
stride-2 downsampled pushes. -/
theorem C4_display_cadence_witness :
    frameRatioOf p4w = FrameRatioVal.int 3 ∧
    (GrabFrames p4w (successRun 7 (fun i => (i : ℤ)) [[1, 2], [3, 4]])).1.dispQueue
      = List.replicate (7 / (3 : ℤ).toNat)
          (downsampleFrame p4w.displayDownsample [[1, 2], [3, 4]]) :=
  ⟨by norm_num [frameRatioOf, p4w, pythonRound],
   C4_display_cadence.2.2 p4w 3 7 (fun i => (i : ℤ)) [[1, 2], [3, 4]]
     (by norm_num [frameRatioOf, p4w, pythonRound]) (by norm_num) (by norm_num [p4w])
     (by norm_num [numImagesToGrab, p4w])⟩

end Campy
